import Mathlib

/-!
Verification of the search-and-answer pipeline in `backend/app.py`.

The development shallowly embeds the Python source: floating-point numbers
are modelled as real numbers, the external providers (Google Custom Search,
the embedding model, the generation model) are modelled as oracle functions
supplied as parameters, and every outbound provider call is recorded in an
explicit call log so that "no network call" properties can be stated.
Python exceptions are modelled with `Except`; `get_embedding` returning
`None` on error is modelled with `Option`.
-/

/-! ## Vector math (`cosine_similarity`, `np.dot`, `np.linalg.norm`) -/

/-- Dot product of two vectors, as `np.dot` on equal-length 1-d arrays:
the sum of componentwise products. -/
noncomputable def dotL (a b : List ℝ) : ℝ :=
  (List.zipWith (fun x y => x * y) a b).sum

/-- Euclidean norm, as `np.linalg.norm`: square root of the sum of squares. -/
noncomputable def normL (a : List ℝ) : ℝ :=
  Real.sqrt (dotL a a)

/-- `cosine_similarity(vec1, vec2)` from the source:
`np.dot(vec1, vec2) / (np.linalg.norm(vec1) * np.linalg.norm(vec2))`. -/
noncomputable def cosine_similarity (vec1 vec2 : List ℝ) : ℝ :=
  dotL vec1 vec2 / (normL vec1 * normL vec2)

/-! ## Data model -/

/-- One search result dict. `google_search` creates it with `title`, `link`,
`snippet`; `filter_results_by_similarity` may attach `similarity_score`.
An absent dict key is modelled by `none`. -/
structure SearchResult where
  title : String
  link : String
  snippet : String
  similarity_score : Option ℝ := none

/-- A raw item as returned by the Custom Search provider (the fields
`google_search` extracts from each `items` entry). -/
structure RawItem where
  title : String
  link : String
  snippet : String

/-- One outbound network call (search provider, embedding provider, or
generation provider). -/
inductive CallEvent where
  | searchCall (query : String)
  | embedCall (text : String)
  | generateCall (prompt : String)

/-- The external service oracles: the Custom Search provider (query and
result count to items, or a provider error), the embedding provider
(text to vector, `none` on error, as `get_embedding` catches the
exception), and the generation provider (prompt to text, or an error). -/
structure Providers where
  searchProvider : String → Nat → Except String (List RawItem)
  embedProvider : String → Option (List ℝ)
  generateProvider : String → Except String String

/-- The environment-sourced configuration that `ask` consults
(`GOOGLE_SEARCH_API_KEY`, `GOOGLE_SEARCH_ENGINE_ID`). An unset variable
is the empty string, as with `os.environ.get(..., "")`. -/
structure Config where
  searchApiKey : String
  searchEngineId : String

/-- A JSON HTTP response as assembled by the `ask` route: the status code
plus the fields the various branches put into the JSON body (`none` means
the field is absent from the body). -/
structure HttpResponse where
  status : Nat
  error : Option String := none
  answer : Option String := none
  sources : Option (List SearchResult) := none
  total_found : Option Nat := none
  filtered_count : Option Nat := none

/-! ## Provider wrappers (`google_search`, `get_embedding`) -/

/-- `get_embedding(text, model)`: one outbound embedding call; returns the
vector, or `none` if the provider raised. The fixed model id
`"text-embedding-005"` does not influence the data flow and is left
implicit in the oracle. -/
def get_embedding (p : Providers) (text : String) :
    Option (List ℝ) × List CallEvent :=
  (p.embedProvider text, [CallEvent.embedCall text])

/-- Convert one provider item to the dict `google_search` builds
(`title`, `link`, `snippet`; no similarity score yet). -/
def toSearchResult (i : RawItem) : SearchResult :=
  { title := i.title, link := i.link, snippet := i.snippet }

/-- `google_search(query, api_key, engine_id, num_results)`: one outbound
search call; normalizes the provider items to `SearchResult`s. The key and
engine id only parameterize the external service, which the oracle absorbs. -/
def google_search (p : Providers) (query : String)
    (_api_key _engine_id : String) (num_results : Nat) :
    Except String (List SearchResult) × List CallEvent :=
  ((p.searchProvider query num_results).map (List.map toSearchResult),
   [CallEvent.searchCall query])

/-! ## Relevance filter (`filter_results_by_similarity`) -/

/-- The sort key `lambda x: x['similarity_score']`. In the source the key
is only ever read on results that carry a score (the filter attaches one
to every element it keeps); the `getD 0` default is never exercised there. -/
def scoreKey (r : SearchResult) : ℝ :=
  r.similarity_score.getD 0

/-- `filtered_results.sort(key=..., reverse=True)`: a stable descending
sort by `scoreKey` (Python's sort is stable, and `reverse=True` does not
reverse ties). -/
noncomputable def sortByScoreDesc (l : List SearchResult) : List SearchResult :=
  l.mergeSort (fun a b => decide (scoreKey b ≤ scoreKey a))

/-- The `for result in search_results:` loop body of
`filter_results_by_similarity`: embed `"{title} {snippet}"`, skip the
result if the embedding fails, otherwise attach the cosine similarity to
the question embedding and keep the result when `similarity >= threshold`.
Returns the kept results (in input order) and the embedding-call log. -/
noncomputable def filterLoop (p : Providers) (qe : List ℝ) (threshold : ℝ) :
    List SearchResult → List SearchResult × List CallEvent
  | [] => ([], [])
  | r :: rs =>
    let e := get_embedding p (r.title ++ " " ++ r.snippet)
    let rest := filterLoop p qe threshold rs
    match e.1 with
    | none => (rest.1, e.2 ++ rest.2)
    | some re =>
      let s := cosine_similarity qe re
      (if threshold ≤ s then { r with similarity_score := some s } :: rest.1
       else rest.1,
       e.2 ++ rest.2)

/-- `filter_results_by_similarity(question, search_results, threshold)`:
embed the question (if that fails, return the input list unchanged), run
the per-result loop, and sort the kept results by score, highest first. -/
noncomputable def filter_results_by_similarity (p : Providers)
    (question : String) (search_results : List SearchResult)
    (threshold : ℝ) : List SearchResult × List CallEvent :=
  let qe := get_embedding p question
  match qe.1 with
  | none => (search_results, qe.2)
  | some q =>
    let fr := filterLoop p q threshold search_results
    (sortByScoreDesc fr.1, qe.2 ++ fr.2)

/-- Spec-side description of the kept results, following the claim's words:
exactly those input results whose own embedding succeeds and whose cosine
similarity to the question embedding is at least the threshold, each
carrying its attached similarity score, in input order (before ranking). -/
noncomputable def specKeptResults (p : Providers) (qe : List ℝ)
    (threshold : ℝ) (rs : List SearchResult) : List SearchResult :=
  rs.filterMap (fun r =>
    match p.embedProvider (r.title ++ " " ++ r.snippet) with
    | none => none
    | some re =>
      let s := cosine_similarity qe re
      if threshold ≤ s then some { r with similarity_score := some s }
      else none)

/-! ## Two-decimal formatting (the `:.2f` conversion)

Python formats the score with `f"{score:.2f}"`. The model rounds
`100 * x` to the nearest integer (ties idealized upward; the source's
binary-float tie behaviour is not observable at this granularity) and
prints it with two fractional digits. -/

/-- Print `m` hundredths as `units.dd`. -/
def fmt2Nat (m : Nat) : String :=
  Nat.repr (m / 100) ++ "." ++
    (if m % 100 < 10 then "0" ++ Nat.repr (m % 100) else Nat.repr (m % 100))

/-- Print `n` hundredths as a signed decimal with two fractional digits. -/
def fmt2Int (n : Int) : String :=
  if n < 0 then "-" ++ fmt2Nat n.natAbs else fmt2Nat n.natAbs

/-- The `:.2f` conversion on a real score. -/
noncomputable def fmt2 (x : ℝ) : String :=
  fmt2Int ⌊x * 100 + 1 / 2⌋

/-! ## Answer composer (`ask_gemini_with_context`) -/

/-- The fixed first line of the context. -/
def preambleStr : String := "다음은 관련 검색 결과입니다:\n\n"

/-- The fixed text between the context and the question in the prompt. -/
def midStr : String :=
  "\n\n위의 검색 결과를 바탕으로 다음 질문에 답변해주세요:\n\n질문: "

/-- The fixed citation instruction that ends the prompt. -/
def tailStr : String :=
  "\n\n답변 시 관련 출처를 [1], [2] 형식으로 인용해주세요."

/-- The four lines the context loop appends for result number `idx`
carrying score `sc`. -/
noncomputable def blockString (idx : Nat) (r : SearchResult) (sc : ℝ) : String :=
  Nat.repr idx ++ ". " ++ r.title ++ "\n   출처: " ++ r.link ++
    "\n   내용: " ++ r.snippet ++ "\n   관련도: " ++ fmt2 sc ++ "\n\n"

/-- One iteration of the context loop; reading `result['similarity_score']`
on a result without a score raises `KeyError`, modelled as `none`. -/
noncomputable def resultBlock (idx : Nat) (r : SearchResult) : Option String :=
  match r.similarity_score with
  | none => none
  | some sc => some (blockString idx r sc)

/-- `for idx, result in enumerate(curated_results, 1): context += ...`,
modelled as the concatenation of the blocks; `none` if some result lacks
a similarity score (the loop raises `KeyError` there). -/
noncomputable def contextLoop (idx : Nat) :
    List SearchResult → Option String
  | [] => some ""
  | r :: rs =>
    match resultBlock idx r with
    | none => none
    | some blk => (contextLoop (idx + 1) rs).map (fun rest => blk ++ rest)

/-- The full prompt `ask_gemini_with_context` sends to the generation
model: context, instruction, question, citation instruction. `none` if
building the context raises. -/
noncomputable def buildPrompt (question : String)
    (curated : List SearchResult) : Option String :=
  (contextLoop 1 curated).map (fun body =>
    preambleStr ++ body ++ midStr ++ question ++ tailStr)

/-- `ask_gemini_with_context(question, curated_results)`: build the prompt
(a missing `similarity_score` key raises, modelled as an error before any
call) and invoke the generation provider once with it. -/
noncomputable def ask_gemini_with_context (p : Providers) (question : String)
    (curated : List SearchResult) : Except String String × List CallEvent :=
  match buildPrompt question curated with
  | none => (Except.error "KeyError: similarity_score", [])
  | some prompt => (p.generateProvider prompt, [CallEvent.generateCall prompt])

/-! ## Request orchestrator (the `/api/ask` route) -/

/-- The `ask` route: validate the question, short-circuit on missing search
credentials, otherwise search (10 results), filter (threshold 0.3), and
generate; any propagated failure is caught once at the top and mapped to a
500 response. Returns the response and the outbound-call log. -/
noncomputable def ask (cfg : Config) (p : Providers) (question : String) :
    HttpResponse × List CallEvent :=
  if question = "" then
    ({ status := 400, error := some "질문이 필요합니다" }, [])
  else if cfg.searchApiKey = "" ∨ cfg.searchEngineId = "" then
    ({ status := 200,
       error := some "Google Search API 자격증명이 필요합니다. README를 참고하세요.",
       answer := some "(Google Search API 없이 테스트) 질문에 대한 답변을 위해서는 Google Custom Search API 키와 검색 엔진 ID가 필요합니다.",
       sources := some [] }, [])
  else
    match google_search p question cfg.searchApiKey cfg.searchEngineId 10 with
    | (Except.error e, slog) => ({ status := 500, error := some e }, slog)
    | (Except.ok search_results, slog) =>
      let fr := filter_results_by_similarity p question search_results 0.3
      match ask_gemini_with_context p question fr.1 with
      | (Except.error e, glog) =>
        ({ status := 500, error := some e }, slog ++ fr.2 ++ glog)
      | (Except.ok answer, glog) =>
        ({ status := 200, answer := some answer, sources := some fr.1,
           total_found := some search_results.length,
           filtered_count := some fr.1.length }, slog ++ fr.2 ++ glog)

/-! ## Substring occurrence counting (for the citation-marker claims) -/

/-- Boolean test that `pat` begins the list `l`. -/
def beginsWith : List Char → List Char → Bool
  | [], _ => true
  | _ :: _, [] => false
  | p :: ps, c :: cs => p == c && beginsWith ps cs

/-- Number of positions of `l` at which `pat` begins (occurrences of a
nonempty pattern; the citation markers counted with it cannot overlap
themselves, so this agrees with any occurrence-counting convention). -/
def countOccAux (pat : List Char) : List Char → Nat
  | [] => 0
  | c :: cs =>
    (if beginsWith pat (c :: cs) then 1 else 0) + countOccAux pat cs

/-- Number of occurrences of `pat` in `s`. -/
def countOcc (pat s : String) : Nat :=
  countOccAux pat.data s.data

/-- The bracketed citation marker for source number `k`. -/
def markerStr (k : Nat) : String :=
  "[" ++ Nat.repr k ++ "]"

/-! ## Concrete fixtures (oracles and data used to exercise the model) -/

/-- A scored search result used as concrete input. -/
def c6Result : SearchResult :=
  { title := "T", link := "L", snippet := "S", similarity_score := some 1 }

/-- An unscored search result used as concrete input. -/
def c5Result : SearchResult :=
  { title := "T", link := "L", snippet := "S" }

/-- Oracles for which every provider call succeeds. -/
noncomputable def provOkAll : Providers :=
  { searchProvider := fun _ _ => Except.ok [{ title := "T", link := "L", snippet := "S" }],
    embedProvider := fun _ => some [1],
    generateProvider := fun _ => Except.ok "ans" }

/-- Oracles whose embedding provider always fails. -/
noncomputable def provEmbedFail : Providers :=
  { searchProvider := fun _ _ => Except.ok [{ title := "T", link := "L", snippet := "S" }],
    embedProvider := fun _ => none,
    generateProvider := fun _ => Except.ok "ans" }

/-- Oracles whose embedding provider fails exactly on the text `"T S"`
(the title-snippet concatenation of `c5Result`). -/
noncomputable def provResultEmbedFail : Providers :=
  { searchProvider := fun _ _ => Except.ok [],
    embedProvider := fun t => if t = "T S" then none else some [1],
    generateProvider := fun _ => Except.ok "ans" }

/-- A configuration with both search credentials present. -/
def cfgFull : Config :=
  { searchApiKey := "k", searchEngineId := "e" }

/-- A configuration with the search API key missing. -/
def cfgNoKey : Config :=
  { searchApiKey := "", searchEngineId := "e" }

/-- The scored result produced when `provOkAll` processes `c5Result`. -/
noncomputable def c2Scored : SearchResult :=
  { c5Result with
    similarity_score := some (cosine_similarity [(1 : ℝ)] [(1 : ℝ)]) }

/-! ## Lemmas about the vector math -/

theorem dotL_nil_left (b : List ℝ) : dotL [] b = 0 := by
  simp [dotL]

theorem dotL_nil_right (a : List ℝ) : dotL a [] = 0 := by
  cases a <;> simp [dotL]

theorem dotL_cons (x y : ℝ) (xs ys : List ℝ) :
    dotL (x :: xs) (y :: ys) = x * y + dotL xs ys := by
  simp [dotL]

theorem dotL_self_nonneg : ∀ a : List ℝ, 0 ≤ dotL a a
  | [] => by simp [dotL]
  | x :: xs => by
    have h := dotL_self_nonneg xs
    rw [dotL_cons]
    nlinarith [mul_self_nonneg x]

theorem dotL_self_pos : ∀ v : List ℝ, (∃ x ∈ v, x ≠ 0) → 0 < dotL v v
  | [], h => by simp at h
  | x :: xs, h => by
    rw [dotL_cons]
    rcases h with ⟨y, hy, hy0⟩
    rcases List.mem_cons.mp hy with rfl | hmem
    · nlinarith [dotL_self_nonneg xs, mul_self_pos.mpr hy0]
    · have := dotL_self_pos xs ⟨y, hmem, hy0⟩
      nlinarith [mul_self_nonneg x]

theorem dotL_comm : ∀ a b : List ℝ, dotL a b = dotL b a
  | [], b => by rw [dotL_nil_left, dotL_nil_right]
  | a, [] => by rw [dotL_nil_left, dotL_nil_right]
  | x :: xs, y :: ys => by
    rw [dotL_cons, dotL_cons, dotL_comm xs ys, mul_comm]

theorem dotL_map_neg_right : ∀ v : List ℝ,
    dotL v (v.map (fun x => -x)) = -dotL v v
  | [] => by simp [dotL]
  | x :: xs => by
    simp only [List.map_cons, dotL_cons, dotL_map_neg_right xs]
    ring

theorem dotL_map_neg_self : ∀ v : List ℝ,
    dotL (v.map (fun x => -x)) (v.map (fun x => -x)) = dotL v v
  | [] => by simp [dotL]
  | x :: xs => by
    simp only [List.map_cons, dotL_cons, dotL_map_neg_self xs]
    ring

theorem dotL_add_smul (t : ℝ) : ∀ a b : List ℝ, a.length = b.length →
    dotL (List.zipWith (fun x y => x + t * y) a b)
      (List.zipWith (fun x y => x + t * y) a b) =
    dotL a a + 2 * t * dotL a b + t ^ 2 * dotL b b
  | [], [], _ => by simp [dotL]
  | [], _ :: _, h => by simp at h
  | _ :: _, [], h => by simp at h
  | x :: xs, y :: ys, h => by
    have hlen : xs.length = ys.length := by simpa using h
    simp only [List.zipWith_cons_cons, dotL_cons, dotL_add_smul t xs ys hlen]
    ring

theorem sq_dotL_le {a b : List ℝ} (h : a.length = b.length) :
    dotL a b ^ 2 ≤ dotL a a * dotL b b := by
  have key : ∀ t : ℝ,
      0 ≤ dotL b b * (t * t) + (2 * dotL a b) * t + dotL a a := by
    intro t
    have hnn := dotL_self_nonneg
      (List.zipWith (fun x y => x + t * y) a b)
    rw [dotL_add_smul t a b h] at hnn
    nlinarith [hnn]
  have hd := discrim_le_zero key
  rw [discrim] at hd
  nlinarith [hd]

theorem normL_nonneg (a : List ℝ) : 0 ≤ normL a :=
  Real.sqrt_nonneg _

theorem abs_dotL_le {a b : List ℝ} (h : a.length = b.length) :
    |dotL a b| ≤ normL a * normL b := by
  have hA := dotL_self_nonneg a
  have hsq := sq_dotL_le h
  have h1 : |dotL a b| = Real.sqrt (dotL a b ^ 2) :=
    (Real.sqrt_sq_eq_abs _).symm
  have h2 : normL a * normL b = Real.sqrt (dotL a a * dotL b b) := by
    rw [normL, normL, Real.sqrt_mul hA]
  rw [h1, h2]
  exact Real.sqrt_le_sqrt hsq

/-- Claim C7: `cosine_similarity a b` equals `dot(a,b)` divided by the
product of the norms; it lies in `[-1, 1]` for equal-length vectors with
non-zero norms; it is `1` on `(v, v)` and `-1` on `(v, -v)` for every
non-zero vector `v`; and it is symmetric in its two arguments. -/
theorem c7_cosine_similarity_properties :
    (∀ a b : List ℝ, cosine_similarity a b = dotL a b / (normL a * normL b)) ∧
    (∀ a b : List ℝ, a.length = b.length → normL a ≠ 0 → normL b ≠ 0 →
      -1 ≤ cosine_similarity a b ∧ cosine_similarity a b ≤ 1) ∧
    (∀ v : List ℝ, (∃ x ∈ v, x ≠ 0) → cosine_similarity v v = 1) ∧
    (∀ v : List ℝ, (∃ x ∈ v, x ≠ 0) →
      cosine_similarity v (v.map (fun x => -x)) = -1) ∧
    (∀ a b : List ℝ, a.length = b.length →
      cosine_similarity a b = cosine_similarity b a) := by
  refine ⟨fun a b => rfl, ?_, ?_, ?_, ?_⟩
  · intro a b hlen ha hb
    have h0a : 0 < normL a := lt_of_le_of_ne (normL_nonneg a) (Ne.symm ha)
    have h0b : 0 < normL b := lt_of_le_of_ne (normL_nonneg b) (Ne.symm hb)
    have hprod : 0 < normL a * normL b := mul_pos h0a h0b
    have habs : |cosine_similarity a b| ≤ 1 := by
      rw [cosine_similarity, abs_div, abs_of_pos hprod]
      exact (div_le_one hprod).mpr (abs_dotL_le hlen)
    exact abs_le.mp habs
  · intro v hv
    have hpos := dotL_self_pos v hv
    rw [cosine_similarity, normL, Real.mul_self_sqrt hpos.le, div_self hpos.ne']
  · intro v hv
    have hpos := dotL_self_pos v hv
    rw [cosine_similarity, dotL_map_neg_right, normL, normL, dotL_map_neg_self,
      Real.mul_self_sqrt hpos.le, neg_div, div_self hpos.ne']
  · intro a b _
    rw [cosine_similarity, cosine_similarity, dotL_comm, mul_comm]

/-- Witness for C7 at concrete vectors. -/
theorem c7_cosine_similarity_properties_witness :
    (([(1:ℝ), 0]).length = ([(0:ℝ), 1]).length ∧
      normL [(1:ℝ), 0] ≠ 0 ∧ normL [(0:ℝ), 1] ≠ 0 ∧
      -1 ≤ cosine_similarity [(1:ℝ), 0] [(0:ℝ), 1] ∧
      cosine_similarity [(1:ℝ), 0] [(0:ℝ), 1] ≤ 1) ∧
    cosine_similarity [(1:ℝ)] [(1:ℝ)] = 1 ∧
    cosine_similarity [(1:ℝ)] (([(1:ℝ)]).map (fun x => -x)) = -1 ∧
    cosine_similarity [(1:ℝ), 0] [(0:ℝ), 1] =
      cosine_similarity [(0:ℝ), 1] [(1:ℝ), 0] := by
  have hd1 : dotL [(1:ℝ), 0] [(1:ℝ), 0] = 1 := by norm_num [dotL]
  have hd2 : dotL [(0:ℝ), 1] [(0:ℝ), 1] = 1 := by norm_num [dotL]
  have hn1 : normL [(1:ℝ), 0] ≠ 0 := by
    rw [normL, hd1, Real.sqrt_one]; norm_num
  have hn2 : normL [(0:ℝ), 1] ≠ 0 := by
    rw [normL, hd2, Real.sqrt_one]; norm_num
  exact ⟨⟨rfl, hn1, hn2,
      c7_cosine_similarity_properties.2.1 [(1:ℝ), 0] [(0:ℝ), 1] rfl hn1 hn2⟩,
    c7_cosine_similarity_properties.2.2.1 [(1:ℝ)] ⟨1, by simp, one_ne_zero⟩,
    c7_cosine_similarity_properties.2.2.2.1 [(1:ℝ)] ⟨1, by simp, one_ne_zero⟩,
    c7_cosine_similarity_properties.2.2.2.2 [(1:ℝ), 0] [(0:ℝ), 1] rfl⟩

/-! ## Lemmas about the relevance filter -/

/-- The kept-result loop produces exactly the spec-side description of the
kept results. -/
theorem filterLoop_fst (p : Providers) (qe : List ℝ) (t : ℝ) :
    ∀ rs : List SearchResult,
      (filterLoop p qe t rs).1 = specKeptResults p qe t rs := by
  intro rs
  induction rs with
  | nil => simp [filterLoop, specKeptResults]
  | cons r rs ih =>
    simp only [filterLoop, specKeptResults, List.filterMap_cons, get_embedding]
    cases h : p.embedProvider (r.title ++ " " ++ r.snippet) with
    | none => simpa [h, specKeptResults] using ih
    | some re =>
      by_cases ht : t ≤ cosine_similarity qe re <;>
        simpa [h, ht, specKeptResults] using ih

/-- Every kept result carries a similarity score at least the threshold. -/
theorem specKeptResults_score {p : Providers} {qe : List ℝ} {t : ℝ}
    {rs : List SearchResult} {r : SearchResult}
    (h : r ∈ specKeptResults p qe t rs) :
    ∃ s, r.similarity_score = some s ∧ t ≤ s := by
  rcases List.mem_filterMap.mp h with ⟨r0, _, hf⟩
  cases hemb : p.embedProvider (r0.title ++ " " ++ r0.snippet) with
  | none => rw [hemb] at hf; simp at hf
  | some re =>
    simp only [hemb] at hf
    by_cases ht : t ≤ cosine_similarity qe re
    · rw [if_pos ht] at hf
      cases hf
      exact ⟨cosine_similarity qe re, rfl, ht⟩
    · rw [if_neg ht] at hf
      simp at hf

/-- Transitivity of the Boolean descending-score comparison. -/
theorem scoreDescTrans : ∀ a b c : SearchResult,
    decide (scoreKey b ≤ scoreKey a) → decide (scoreKey c ≤ scoreKey b) →
    decide (scoreKey c ≤ scoreKey a) := by
  intro a b c hab hbc
  simp only [decide_eq_true_eq] at *
  exact le_trans hbc hab

/-- Totality of the Boolean descending-score comparison. -/
theorem scoreDescTotal : ∀ a b : SearchResult,
    (decide (scoreKey b ≤ scoreKey a) || decide (scoreKey a ≤ scoreKey b)) = true := by
  intro a b
  simp only [Bool.or_eq_true, decide_eq_true_eq]
  exact le_total _ _

/-- Claim C3: if the question embedding fails, the filter returns the input
results unchanged (same list, in particular unscored and in original order). -/
theorem c3_question_embed_fail_returns_input (p : Providers) (question : String)
    (search_results : List SearchResult) (threshold : ℝ)
    (h : p.embedProvider question = none) :
    (filter_results_by_similarity p question search_results threshold).1 =
      search_results := by
  simp [filter_results_by_similarity, get_embedding, h]

/-- Claim C10: on an empty result list the filter returns the empty list,
and its only outbound embedding call is the single question embedding. -/
theorem c10_empty_results_single_call (p : Providers) (question : String)
    (threshold : ℝ) :
    filter_results_by_similarity p question [] threshold =
      ([], [CallEvent.embedCall question]) := by
  cases h : p.embedProvider question with
  | none => simp [filter_results_by_similarity, get_embedding, h]
  | some qe =>
    simp [filter_results_by_similarity, get_embedding, h, filterLoop,
      sortByScoreDesc, List.mergeSort]

/-- Claim C1: when the question embedding succeeds, the filter's output is
a permutation of exactly the input results whose own embedding succeeds and
whose similarity clears the threshold (each carrying its attached score),
sorted descending by score, and stably so: any subsequence of the kept
results already in descending order survives as a subsequence of the
output, so ties keep their original relative order. -/
theorem c1_filter_exact_sorted_stable (p : Providers) (question : String)
    (threshold : ℝ) (qe : List ℝ) (rs : List SearchResult)
    (h : p.embedProvider question = some qe) :
    List.Perm ((filter_results_by_similarity p question rs threshold).1)
      (specKeptResults p qe threshold rs) ∧
    List.Pairwise (fun a b => scoreKey b ≤ scoreKey a)
      ((filter_results_by_similarity p question rs threshold).1) ∧
    (∀ c : List SearchResult,
      List.Pairwise (fun a b => scoreKey b ≤ scoreKey a) c →
      c.Sublist (specKeptResults p qe threshold rs) →
      c.Sublist ((filter_results_by_similarity p question rs threshold).1)) := by
  have hout : (filter_results_by_similarity p question rs threshold).1 =
      sortByScoreDesc (specKeptResults p qe threshold rs) := by
    simp [filter_results_by_similarity, get_embedding, h, filterLoop_fst]
  refine ⟨?_, ?_, ?_⟩
  · rw [hout]
    exact List.mergeSort_perm _ _
  · rw [hout]
    exact (List.sorted_mergeSort scoreDescTrans scoreDescTotal _).imp
      (fun hab => by simpa using hab)
  · intro c hc hsub
    rw [hout]
    exact List.sublist_mergeSort scoreDescTrans scoreDescTotal
      (hc.imp (fun hab => by simpa using hab)) hsub

/-- Claim C5: when the question embedding succeeds and one result's own
embedding fails, the filter output on a list containing that result equals
the output on the same list with that result removed — the failing result
is dropped and every other result is treated exactly as it would be
otherwise. -/
theorem c5_result_embed_fail_independent (p : Providers) (question : String)
    (threshold : ℝ) (qe : List ℝ) (r : SearchResult)
    (pre post : List SearchResult)
    (hq : p.embedProvider question = some qe)
    (hr : p.embedProvider (r.title ++ " " ++ r.snippet) = none) :
    (filter_results_by_similarity p question (pre ++ r :: post) threshold).1 =
      (filter_results_by_similarity p question (pre ++ post) threshold).1 := by
  have h1 : specKeptResults p qe threshold (pre ++ r :: post) =
      specKeptResults p qe threshold (pre ++ post) := by
    simp only [specKeptResults, List.filterMap_append, List.filterMap_cons, hr]
  simp [filter_results_by_similarity, get_embedding, hq, filterLoop_fst, h1]

/-! ## Lemmas about the answer composer and the orchestrator -/

/-- If the context loop succeeds, every listed result carried a
similarity score (otherwise the loop would have raised `KeyError`). -/
theorem contextLoop_some_scores : ∀ (l : List SearchResult) (i : Nat)
    (c : String), contextLoop i l = some c →
    ∀ r ∈ l, ∃ s, r.similarity_score = some s
  | [], _, _, _ => by simp
  | r :: rs, i, c, h => by
    intro r' hr'
    rw [contextLoop] at h
    cases hb : resultBlock i r with
    | none => rw [hb] at h; simp at h
    | some blk =>
      simp only [hb] at h
      cases hc2 : contextLoop (i + 1) rs with
      | none => rw [hc2] at h; simp at h
      | some rest =>
        rcases List.mem_cons.mp hr' with rfl | hmem
        · cases hscore : r'.similarity_score with
          | none => rw [resultBlock, hscore] at hb; simp at hb
          | some s => exact ⟨s, rfl⟩
        · exact contextLoop_some_scores rs (i + 1) rest hc2 r' hmem

/-- If every result carries a similarity score, the context loop succeeds. -/
theorem contextLoop_total : ∀ (l : List SearchResult) (i : Nat),
    (∀ r ∈ l, ∃ s, r.similarity_score = some s) →
    ∃ c, contextLoop i l = some c
  | [], _, _ => ⟨"", rfl⟩
  | r :: rs, i, h => by
    rcases h r (by simp) with ⟨s, hs⟩
    rcases contextLoop_total rs (i + 1)
      (fun r' hr' => h r' (by simp [hr'])) with ⟨c, hc⟩
    exact ⟨blockString i r s ++ c, by simp [contextLoop, resultBlock, hs, hc]⟩

/-- Results normalized by `google_search` never carry a similarity score. -/
theorem mem_map_toSearchResult_score {items : List RawItem} {r : SearchResult}
    (h : r ∈ items.map toSearchResult) : r.similarity_score = none := by
  rcases List.mem_map.mp h with ⟨i, _, rfl⟩
  rfl

/-- Claim C9: an empty question yields a 400 response carrying an error
field, and no outbound call of any kind is made. -/
theorem c9_empty_question_400_no_calls (cfg : Config) (p : Providers) :
    (ask cfg p "").1.status = 400 ∧
    (∃ e, (ask cfg p "").1.error = some e) ∧
    (ask cfg p "").2 = [] := by
  refine ⟨by simp [ask], ⟨"질문이 필요합니다", by simp [ask]⟩, by simp [ask]⟩

/-- Claim C8: with a non-empty question and a missing search credential,
`ask` returns a 200 response with a non-empty error field, an explanatory
answer, and empty sources, and makes zero outbound calls. -/
theorem c8_missing_credentials_degraded (cfg : Config) (p : Providers)
    (q : String) (hq : q ≠ "")
    (hcred : cfg.searchApiKey = "" ∨ cfg.searchEngineId = "") :
    (ask cfg p q).1.status = 200 ∧
    (∃ e, (ask cfg p q).1.error = some e ∧ e ≠ "") ∧
    (∃ a, (ask cfg p q).1.answer = some a) ∧
    (ask cfg p q).1.sources = some [] ∧
    (ask cfg p q).2 = [] := by
  refine ⟨?_,
    ⟨"Google Search API 자격증명이 필요합니다. README를 참고하세요.", ?_, by decide⟩,
    ⟨"(Google Search API 없이 테스트) 질문에 대한 답변을 위해서는 Google Custom Search API 키와 검색 엔진 ID가 필요합니다.", ?_⟩,
    ?_, ?_⟩ <;>
  simp [ask, if_neg hq, if_pos hcred]

/-- Claim C4: if the question embedding fails while the search returned at
least one result, no answer payload is produced: the unscored fallback
results make the composer's score lookup raise, and the top-level handler
returns a 500 response with no answer and no sources. -/
theorem c4_question_embed_fail_nonempty_500 (cfg : Config) (p : Providers)
    (q : String) (items : List RawItem) (hq : q ≠ "")
    (hk : cfg.searchApiKey ≠ "") (he : cfg.searchEngineId ≠ "")
    (hqe : p.embedProvider q = none)
    (hsp : p.searchProvider q 10 = Except.ok items)
    (hne : items ≠ []) :
    (ask cfg p q).1.status = 500 ∧
    (ask cfg p q).1.answer = none ∧
    (ask cfg p q).1.sources = none := by
  have hcred : ¬(cfg.searchApiKey = "" ∨ cfg.searchEngineId = "") := by
    simp [hk, he]
  obtain ⟨i, is, rfl⟩ : ∃ i is, items = i :: is := by
    cases items with
    | nil => exact absurd rfl hne
    | cons i is => exact ⟨i, is, rfl⟩
  simp [ask, if_neg hq, if_neg hcred, google_search, hsp, Except.map,
    filter_results_by_similarity, get_embedding, hqe,
    ask_gemini_with_context, buildPrompt, contextLoop, resultBlock,
    toSearchResult]

/-- Claim C2: every successful non-degraded (status 200, no error field)
response of `ask` satisfies `filtered_count = sources.length ≤ total_found`
and every source carries a similarity score of at least the 0.3 threshold. -/
theorem c2_success_payload_invariants (cfg : Config) (p : Providers)
    (q : String)
    (h200 : (ask cfg p q).1.status = 200)
    (herr : (ask cfg p q).1.error = none) :
    ∃ srcs tf, (ask cfg p q).1.sources = some srcs ∧
      (ask cfg p q).1.total_found = some tf ∧
      (ask cfg p q).1.filtered_count = some srcs.length ∧
      srcs.length ≤ tf ∧
      ∀ r ∈ srcs, ∃ s, r.similarity_score = some s ∧ (0.3 : ℝ) ≤ s := by
  by_cases hq : q = ""
  · rw [hq] at h200
    simp [ask] at h200
  by_cases hcred : cfg.searchApiKey = "" ∨ cfg.searchEngineId = ""
  · simp [ask, if_neg hq, if_pos hcred] at herr
  cases hsp : p.searchProvider q 10 with
  | error e =>
    exfalso
    have h500 : (ask cfg p q).1.status = 500 := by
      simp [ask, if_neg hq, if_neg hcred, google_search, hsp, Except.map]
    rw [h500] at h200
    exact absurd h200 (by decide)
  | ok items =>
    cases hg : ask_gemini_with_context p q
        (filter_results_by_similarity p q (items.map toSearchResult) 0.3).1 with
    | mk g glog =>
      cases g with
      | error e =>
        exfalso
        have h500 : (ask cfg p q).1.status = 500 := by
          simp [ask, if_neg hq, if_neg hcred, google_search, hsp, Except.map, hg]
        rw [h500] at h200
        exact absurd h200 (by decide)
      | ok a =>
        have hask1 : (ask cfg p q).1 =
            { status := 200, answer := some a,
              sources := some (filter_results_by_similarity p q
                (items.map toSearchResult) 0.3).1,
              total_found := some (items.map toSearchResult).length,
              filtered_count := some (filter_results_by_similarity p q
                (items.map toSearchResult) 0.3).1.length } := by
          simp [ask, if_neg hq, if_neg hcred, google_search, hsp, Except.map, hg]
        have hbp : ∃ pr, buildPrompt q (filter_results_by_similarity p q
            (items.map toSearchResult) 0.3).1 = some pr := by
          cases hb : buildPrompt q (filter_results_by_similarity p q
              (items.map toSearchResult) 0.3).1 with
          | none => rw [ask_gemini_with_context, hb] at hg; simp at hg
          | some pr => exact ⟨pr, rfl⟩
        refine ⟨(filter_results_by_similarity p q
            (items.map toSearchResult) 0.3).1,
          (items.map toSearchResult).length, by rw [hask1], by rw [hask1],
          by rw [hask1], ?_, ?_⟩
        · cases hqe : p.embedProvider q with
          | none =>
            have : (filter_results_by_similarity p q
                (items.map toSearchResult) 0.3).1 = items.map toSearchResult := by
              simp [filter_results_by_similarity, get_embedding, hqe]
            rw [this]
          | some qe =>
            have : (filter_results_by_similarity p q
                (items.map toSearchResult) 0.3).1 =
                sortByScoreDesc (specKeptResults p qe 0.3
                  (items.map toSearchResult)) := by
              simp [filter_results_by_similarity, get_embedding, hqe,
                filterLoop_fst]
            rw [this, sortByScoreDesc, List.length_mergeSort]
            exact List.length_filterMap_le _ _
        · intro r hr
          cases hqe : p.embedProvider q with
          | none =>
            have hid : (filter_results_by_similarity p q
                (items.map toSearchResult) 0.3).1 = items.map toSearchResult := by
              simp [filter_results_by_similarity, get_embedding, hqe]
            rcases hbp with ⟨pr, hpr⟩
            rcases Option.map_eq_some'.mp hpr with ⟨body, hbody, -⟩
            obtain ⟨s, hs⟩ := contextLoop_some_scores _ 1 body hbody r hr
            rw [hid] at hr
            rw [mem_map_toSearchResult_score hr] at hs
            cases hs
          | some qe =>
            have hsorted : (filter_results_by_similarity p q
                (items.map toSearchResult) 0.3).1 =
                sortByScoreDesc (specKeptResults p qe 0.3
                  (items.map toSearchResult)) := by
              simp [filter_results_by_similarity, get_embedding, hqe,
                filterLoop_fst]
            rw [hsorted, sortByScoreDesc] at hr
            exact specKeptResults_score (List.mem_mergeSort.mp hr)

/-! ## Lemmas about strings, digits and marker counting -/

theorem strData_append (a b : String) : (a ++ b).data = a.data ++ b.data :=
  rfl

theorem strExt {a b : String} (h : a.data = b.data) : a = b := by
  cases a
  cases b
  exact congrArg String.mk h

theorem noBr_append {a b : String} (ha : '[' ∉ a.data) (hb : '[' ∉ b.data) :
    '[' ∉ (a ++ b).data := by
  rw [strData_append]
  intro h
  rcases List.mem_append.mp h with h | h
  · exact ha h
  · exact hb h

theorem strAppend_assoc (a b c : String) : a ++ b ++ c = a ++ (b ++ c) :=
  strExt (by simp [strData_append])

theorem strEmpty_append (s : String) : "" ++ s = s :=
  strExt (by simp [strData_append])

theorem digitChar_isDigit : ∀ m : Nat, m < 10 → (Nat.digitChar m).isDigit = true := by
  decide

theorem toDigitsCore_isDigit :
    ∀ (fuel n : Nat) (ds : List Char), (∀ c ∈ ds, c.isDigit = true) →
      ∀ c ∈ Nat.toDigitsCore 10 fuel n ds, c.isDigit = true
  | 0, _, _, hds => hds
  | fuel + 1, n, ds, hds => by
    rw [Nat.toDigitsCore]
    have hd : (Nat.digitChar (n % 10)).isDigit = true :=
      digitChar_isDigit _ (Nat.mod_lt _ (by norm_num))
    have hcons : ∀ c ∈ Nat.digitChar (n % 10) :: ds, c.isDigit = true := by
      intro c hc
      rcases List.mem_cons.mp hc with rfl | hc
      · exact hd
      · exact hds c hc
    by_cases h0 : n / 10 = 0
    · rw [if_pos h0]
      exact hcons
    · rw [if_neg h0]
      exact toDigitsCore_isDigit fuel (n / 10) _ hcons

theorem natRepr_isDigit (n : Nat) : ∀ c ∈ (Nat.repr n).data, c.isDigit = true := by
  intro c hc
  exact toDigitsCore_isDigit (n + 1) n [] (by simp) c hc

theorem natRepr_no_bracket (n : Nat) : '[' ∉ (Nat.repr n).data := by
  intro h
  have := natRepr_isDigit n '[' h
  simp at this

theorem fmt2Nat_no_bracket (m : Nat) : '[' ∉ (fmt2Nat m).data := by
  rw [fmt2Nat]
  refine noBr_append (noBr_append (natRepr_no_bracket _) (by decide)) ?_
  by_cases h : m % 100 < 10
  · rw [if_pos h]
    exact noBr_append (by decide) (natRepr_no_bracket _)
  · rw [if_neg h]
    exact natRepr_no_bracket _

theorem fmt2_no_bracket (x : ℝ) : '[' ∉ (fmt2 x).data := by
  rw [fmt2, fmt2Int]
  by_cases h : ⌊x * 100 + 1 / 2⌋ < 0
  · rw [if_pos h]
    exact noBr_append (by decide) (fmt2Nat_no_bracket _)
  · rw [if_neg h]
    exact fmt2Nat_no_bracket _

theorem blockString_no_bracket (idx : Nat) (r : SearchResult) (sc : ℝ)
    (ht : '[' ∉ r.title.data) (hl : '[' ∉ r.link.data)
    (hs : '[' ∉ r.snippet.data) : '[' ∉ (blockString idx r sc).data := by
  rw [blockString]
  exact noBr_append (noBr_append (noBr_append (noBr_append (noBr_append
    (noBr_append (noBr_append (noBr_append (noBr_append
      (natRepr_no_bracket idx) (by decide)) ht) (by decide)) hl)
        (by decide)) hs) (by decide)) (fmt2_no_bracket sc)) (by decide)

/-- Occurrences of a pattern beginning with `p` start at a `p`; appending
a `p`-free list on the left does not add occurrences. -/
theorem countOccAux_append (p : Char) (ps l1 l2 : List Char) (h : p ∉ l1) :
    countOccAux (p :: ps) (l1 ++ l2) = countOccAux (p :: ps) l2 := by
  induction l1 with
  | nil => rfl
  | cons c cs ih =>
    simp only [List.mem_cons, not_or] at h
    obtain ⟨hpc, hcs⟩ := h
    have hb : beginsWith (p :: ps) (c :: (cs ++ l2)) = false := by
      simp [beginsWith, hpc]
    rw [List.cons_append, countOccAux, hb]
    simp [ih hcs]

/-- Prepending a bracket-free string does not change marker counts. -/
theorem countOcc_marker_append (k : Nat) (a b : String) (ha : '[' ∉ a.data) :
    countOcc (markerStr k) (a ++ b) = countOcc (markerStr k) b := by
  have hpat : (markerStr k).data = '[' :: ((Nat.repr k).data ++ [']']) := by
    simp [markerStr, strData_append]
  rw [countOcc, countOcc, strData_append, hpat]
  exact countOccAux_append '[' _ _ _ ha

/-- The context the loop builds contains no `[` when the listed results
contain none. -/
theorem contextLoop_no_bracket : ∀ (l : List SearchResult) (i : Nat)
    (c : String),
    (∀ r ∈ l, '[' ∉ r.title.data ∧ '[' ∉ r.link.data ∧ '[' ∉ r.snippet.data) →
    contextLoop i l = some c → '[' ∉ c.data
  | [], _, c, _, h => by
    simp only [contextLoop] at h
    cases h
    decide
  | r :: rs, i, c, hnb, h => by
    rw [contextLoop] at h
    cases hb : resultBlock i r with
    | none => rw [hb] at h; simp at h
    | some blk =>
      simp only [hb] at h
      cases hc2 : contextLoop (i + 1) rs with
      | none => rw [hc2] at h; simp at h
      | some rest =>
        rw [hc2] at h
        simp only [Option.map_some'] at h
        cases h
        have hblk : '[' ∉ blk.data := by
          cases hscore : r.similarity_score with
          | none => rw [resultBlock, hscore] at hb; simp at hb
          | some s =>
            rw [resultBlock, hscore] at hb
            cases hb
            exact blockString_no_bracket i r s (hnb r (by simp)).1
              (hnb r (by simp)).2.1 (hnb r (by simp)).2.2
        have hrest := contextLoop_no_bracket rs (i + 1) rest
          (fun r' hr' => hnb r' (by simp [hr'])) hc2
        exact noBr_append hblk hrest

/-- Each listed result's block occurs inside the successful context, with
its 1-based position as index. -/
theorem contextLoop_block : ∀ (l : List SearchResult) (start i : Nat)
    (hi : i < l.length),
    (∀ r ∈ l, ∃ s, r.similarity_score = some s) →
    ∃ u v sc, (l.get ⟨i, hi⟩).similarity_score = some sc ∧
      contextLoop start l = some (u ++ blockString (start + i) (l.get ⟨i, hi⟩) sc ++ v)
  | [], _, i, hi, _ => absurd hi (by simp)
  | r :: rs, start, 0, _, h => by
    rcases h r (by simp) with ⟨s, hs⟩
    rcases contextLoop_total rs (start + 1)
      (fun r' hr' => h r' (by simp [hr'])) with ⟨c, hc⟩
    refine ⟨"", c, s, hs, ?_⟩
    have : contextLoop start (r :: rs) = some (blockString start r s ++ c) := by
      simp [contextLoop, resultBlock, hs, hc]
    rw [this, Nat.add_zero, strEmpty_append]
    rfl
  | r :: rs, start, i + 1, hi, h => by
    rcases h r (by simp) with ⟨s, hs⟩
    have hi' : i < rs.length := by simpa using hi
    rcases contextLoop_block rs (start + 1) i hi'
      (fun r' hr' => h r' (by simp [hr'])) with ⟨u, v, sc, hsc, hloop⟩
    refine ⟨blockString start r s ++ u, v, sc, hsc, ?_⟩
    have hstep : contextLoop start (r :: rs) =
        some (blockString start r s ++ (u ++ blockString (start + 1 + i) (rs.get ⟨i, hi'⟩) sc ++ v)) := by
      simp [contextLoop, resultBlock, hs, hloop]
    rw [hstep]
    have hidx : start + (i + 1) = start + 1 + i := by omega
    have hget : (r :: rs).get ⟨i + 1, hi⟩ = rs.get ⟨i, hi'⟩ := rfl
    rw [hidx, hget]
    exact congrArg some (strExt (by simp [strData_append]))

set_option maxRecDepth 8192

/-- Claim C6 (counterexample): for the single curated result `c6Result`
(so N = 1), the claim "the prompt contains exactly the N citation markers
`[1]`..`[N]`" fails: the built prompt contains the marker `[2]`, which
comes from the fixed citation instruction and not from the enumeration. -/
theorem c6_counterexample_marker_two :
    buildPrompt "q" [c6Result] ≠ none ∧
    countOcc (markerStr 2) ((buildPrompt "q" [c6Result]).getD "") = 1 := by
  have hfloor : ⌊(1 : ℝ) * 100 + 1 / 2⌋ = (100 : ℤ) := by
    rw [Int.floor_eq_iff]
    constructor <;> norm_num
  have hfmt : fmt2 1 = "1.00" := by
    rw [fmt2, hfloor]
    decide
  have hbp : buildPrompt "q" [c6Result] =
      some (preambleStr ++ (blockString 1 c6Result 1 ++ "") ++ midStr ++ "q" ++
        tailStr) := by
    rw [buildPrompt]
    simp [contextLoop, resultBlock, c6Result]
  constructor
  · rw [hbp]
    simp
  · rw [hbp, Option.getD_some]
    simp only [blockString, hfmt, c6Result]
    decide

/-- Claim C6 (amended): for every curated list all of whose results carry
a similarity score, the prompt lists each result in order with its 1-based
index, title, link, snippet and two-decimal similarity score (each
result's block occurs in the prompt with index i+1); but the bracketed
citation markers of the prompt come only from the fixed citation
instruction, which contains exactly one `[1]` and one `[2]` and no other
marker, regardless of the number of results (stated for inputs that do not
themselves contain the character `[`). -/
theorem c6_amended_prompt_blocks_and_markers (q : String)
    (curated : List SearchResult)
    (hsc : ∀ r ∈ curated, ∃ s, r.similarity_score = some s)
    (hq : '[' ∉ q.data)
    (hnb : ∀ r ∈ curated,
      '[' ∉ r.title.data ∧ '[' ∉ r.link.data ∧ '[' ∉ r.snippet.data) :
    ∃ pr, buildPrompt q curated = some pr ∧
      (∀ i, ∀ hi : i < curated.length, ∃ u v sc,
        (curated.get ⟨i, hi⟩).similarity_score = some sc ∧
        pr = u ++ blockString (i + 1) (curated.get ⟨i, hi⟩) sc ++ v) ∧
      countOcc (markerStr 1) pr = 1 ∧ countOcc (markerStr 2) pr = 1 ∧
      countOcc (markerStr 3) pr = 0 ∧ pr.data.count '[' = 2 := by
  rcases contextLoop_total curated 1 hsc with ⟨body, hbody⟩
  have hbodynb : '[' ∉ body.data := contextLoop_no_bracket curated 1 body hnb hbody
  have hprenb : '[' ∉ (preambleStr ++ body ++ midStr ++ q).data :=
    noBr_append (noBr_append (noBr_append (by decide) hbodynb) (by decide)) hq
  refine ⟨preambleStr ++ body ++ midStr ++ q ++ tailStr, ?_, ?_, ?_, ?_, ?_, ?_⟩
  · rw [buildPrompt, hbody]
    rfl
  · intro i hi
    rcases contextLoop_block curated 1 i hi hsc with ⟨u, v, sc, hsc', hloop⟩
    have hcomm : 1 + i = i + 1 := Nat.add_comm 1 i
    rw [hcomm, hbody] at hloop
    cases hloop
    refine ⟨preambleStr ++ u, v ++ midStr ++ q ++ tailStr, sc, hsc', ?_⟩
    exact strExt (by simp [strData_append])
  · exact (countOcc_marker_append 1 _ tailStr hprenb).trans (by decide)
  · exact (countOcc_marker_append 2 _ tailStr hprenb).trans (by decide)
  · exact (countOcc_marker_append 3 _ tailStr hprenb).trans (by decide)
  · rw [strData_append, List.count_append]
    rw [List.count_eq_zero.mpr hprenb, Nat.zero_add]
    decide

/-- Witness for the amended C6 at a concrete curated list. -/
theorem c6_amended_witness :
    (∀ r ∈ [c6Result], ∃ s, r.similarity_score = some s) ∧
    '[' ∉ ("q" : String).data ∧
    (∀ r ∈ [c6Result],
      '[' ∉ r.title.data ∧ '[' ∉ r.link.data ∧ '[' ∉ r.snippet.data) ∧
    (∃ pr, buildPrompt "q" [c6Result] = some pr ∧
      (∀ i, ∀ hi : i < ([c6Result] : List SearchResult).length, ∃ u v sc,
        (([c6Result] : List SearchResult).get ⟨i, hi⟩).similarity_score = some sc ∧
        pr = u ++ blockString (i + 1)
          (([c6Result] : List SearchResult).get ⟨i, hi⟩) sc ++ v) ∧
      countOcc (markerStr 1) pr = 1 ∧ countOcc (markerStr 2) pr = 1 ∧
      countOcc (markerStr 3) pr = 0 ∧ pr.data.count '[' = 2) := by
  have h1 : ∀ r ∈ [c6Result], ∃ s, r.similarity_score = some s := by
    intro r hr
    rw [List.mem_singleton] at hr
    subst hr
    exact ⟨1, rfl⟩
  have h2 : '[' ∉ ("q" : String).data := by decide
  have h3 : ∀ r ∈ [c6Result],
      '[' ∉ r.title.data ∧ '[' ∉ r.link.data ∧ '[' ∉ r.snippet.data := by
    intro r hr
    rw [List.mem_singleton] at hr
    subst hr
    exact ⟨by decide, by decide, by decide⟩
  exact ⟨h1, h2, h3,
    c6_amended_prompt_blocks_and_markers "q" [c6Result] h1 h2 h3⟩

/-- Witness for C1 at a concrete provider and input list. -/
theorem c1_filter_witness :
    provOkAll.embedProvider "q" = some [(1 : ℝ)] ∧
    (List.Perm ((filter_results_by_similarity provOkAll "q" [] (0.3 : ℝ)).1)
        (specKeptResults provOkAll [(1 : ℝ)] (0.3 : ℝ) []) ∧
      List.Pairwise (fun a b => scoreKey b ≤ scoreKey a)
        ((filter_results_by_similarity provOkAll "q" [] (0.3 : ℝ)).1) ∧
      (∀ c : List SearchResult,
        List.Pairwise (fun a b => scoreKey b ≤ scoreKey a) c →
        c.Sublist (specKeptResults provOkAll [(1 : ℝ)] (0.3 : ℝ) []) →
        c.Sublist ((filter_results_by_similarity provOkAll "q" [] (0.3 : ℝ)).1))) :=
  ⟨rfl, c1_filter_exact_sorted_stable provOkAll "q" 0.3 [(1 : ℝ)] [] rfl⟩

/-- Witness for C3 at a concrete provider and input list. -/
theorem c3_witness :
    provEmbedFail.embedProvider "q" = none ∧
    (filter_results_by_similarity provEmbedFail "q" [c5Result] (0.3 : ℝ)).1 =
      [c5Result] :=
  ⟨rfl, c3_question_embed_fail_returns_input provEmbedFail "q" [c5Result] 0.3 rfl⟩

/-- Witness for C4 at a concrete configuration and providers. -/
theorem c4_witness :
    ("q" : String) ≠ "" ∧ cfgFull.searchApiKey ≠ "" ∧
    cfgFull.searchEngineId ≠ "" ∧
    provEmbedFail.embedProvider "q" = none ∧
    provEmbedFail.searchProvider "q" 10 =
      Except.ok [{ title := "T", link := "L", snippet := "S" }] ∧
    ([{ title := "T", link := "L", snippet := "S" }] : List RawItem) ≠ [] ∧
    ((ask cfgFull provEmbedFail "q").1.status = 500 ∧
      (ask cfgFull provEmbedFail "q").1.answer = none ∧
      (ask cfgFull provEmbedFail "q").1.sources = none) := by
  refine ⟨by decide, by decide, by decide, rfl, rfl, by simp, ?_⟩
  exact c4_question_embed_fail_nonempty_500 cfgFull provEmbedFail "q"
    [{ title := "T", link := "L", snippet := "S" }]
    (by decide) (by decide) (by decide) rfl rfl (by simp)

/-- Witness for C5 at a concrete provider whose embedding fails exactly on
the middle result's text. -/
theorem c5_witness :
    provResultEmbedFail.embedProvider "q" = some [(1 : ℝ)] ∧
    provResultEmbedFail.embedProvider
      (c5Result.title ++ " " ++ c5Result.snippet) = none ∧
    (filter_results_by_similarity provResultEmbedFail "q"
        ([] ++ c5Result :: []) (0.3 : ℝ)).1 =
      (filter_results_by_similarity provResultEmbedFail "q"
        ([] ++ []) (0.3 : ℝ)).1 := by
  have h1 : provResultEmbedFail.embedProvider "q" = some [(1 : ℝ)] := by
    show (if ("q" : String) = "T S" then none else some [(1 : ℝ)]) = some [(1 : ℝ)]
    exact if_neg (by decide)
  have h2 : provResultEmbedFail.embedProvider
      (c5Result.title ++ " " ++ c5Result.snippet) = none := by
    show (if (c5Result.title ++ " " ++ c5Result.snippet) = "T S"
        then (none : Option (List ℝ)) else some [(1 : ℝ)]) = none
    exact if_pos (by decide)
  exact ⟨h1, h2, c5_result_embed_fail_independent provResultEmbedFail "q" 0.3
    [(1 : ℝ)] c5Result [] [] h1 h2⟩

/-- Witness for C8 at a configuration missing the API key. -/
theorem c8_witness :
    ("q" : String) ≠ "" ∧
    (cfgNoKey.searchApiKey = "" ∨ cfgNoKey.searchEngineId = "") ∧
    ((ask cfgNoKey provOkAll "q").1.status = 200 ∧
      (∃ e, (ask cfgNoKey provOkAll "q").1.error = some e ∧ e ≠ "") ∧
      (∃ a, (ask cfgNoKey provOkAll "q").1.answer = some a) ∧
      (ask cfgNoKey provOkAll "q").1.sources = some [] ∧
      (ask cfgNoKey provOkAll "q").2 = []) :=
  ⟨by decide, Or.inl rfl,
    c8_missing_credentials_degraded cfgNoKey provOkAll "q" (by decide) (Or.inl rfl)⟩

/-- Witness for C2: a concrete run of `ask` reaching a successful
non-degraded response. -/
theorem c2_witness :
    (ask cfgFull provOkAll "q").1.status = 200 ∧
    (ask cfgFull provOkAll "q").1.error = none ∧
    (∃ srcs tf, (ask cfgFull provOkAll "q").1.sources = some srcs ∧
      (ask cfgFull provOkAll "q").1.total_found = some tf ∧
      (ask cfgFull provOkAll "q").1.filtered_count = some srcs.length ∧
      srcs.length ≤ tf ∧
      ∀ r ∈ srcs, ∃ s, r.similarity_score = some s ∧ (0.3 : ℝ) ≤ s) := by
  have hcos : cosine_similarity [(1 : ℝ)] [(1 : ℝ)] = 1 := by
    have hd : dotL [(1 : ℝ)] [(1 : ℝ)] = 1 := by norm_num [dotL]
    rw [cosine_similarity, normL, hd, Real.sqrt_one]
    norm_num
  have hle : (0.3 : ℝ) ≤ cosine_similarity [(1 : ℝ)] [(1 : ℝ)] := by
    rw [hcos]
    norm_num
  have hgs : google_search provOkAll "q" cfgFull.searchApiKey
      cfgFull.searchEngineId 10 =
      (Except.ok [c5Result], [CallEvent.searchCall "q"]) := by
    simp [google_search, provOkAll, toSearchResult, c5Result, Except.map]
  have hfilter : filter_results_by_similarity provOkAll "q" [c5Result] 0.3 =
      ([c2Scored],
        [CallEvent.embedCall "q",
          CallEvent.embedCall (c5Result.title ++ " " ++ c5Result.snippet)]) := by
    simp [filter_results_by_similarity, get_embedding, provOkAll, filterLoop,
      hle, sortByScoreDesc, List.mergeSort, c2Scored]
  have hcomp : ∃ pr, ask_gemini_with_context provOkAll "q" [c2Scored] =
      (Except.ok "ans", [CallEvent.generateCall pr]) := by
    cases hbp : buildPrompt "q" [c2Scored] with
    | none =>
      exfalso
      rw [buildPrompt, contextLoop, resultBlock] at hbp
      simp [contextLoop, c2Scored] at hbp
    | some pr => exact ⟨pr, by simp [ask_gemini_with_context, hbp, provOkAll]⟩
  obtain ⟨pr, hcomp⟩ := hcomp
  have hask : (ask cfgFull provOkAll "q").1 =
      { status := 200, answer := some "ans", sources := some [c2Scored],
        total_found := some 1, filtered_count := some 1 } := by
    have hq : ("q" : String) ≠ "" := by decide
    have hcred : ¬(cfgFull.searchApiKey = "" ∨ cfgFull.searchEngineId = "") := by
      simp [cfgFull]
    simp [ask, if_neg hq, if_neg hcred, hgs, hfilter, hcomp]
  have h200 : (ask cfgFull provOkAll "q").1.status = 200 := by rw [hask]
  have herr : (ask cfgFull provOkAll "q").1.error = none := by rw [hask]
  exact ⟨h200, herr, c2_success_payload_invariants cfgFull provOkAll "q" h200 herr⟩
